import Mathlib

/-!
Shallow embedding of the fallback (static/demo) code paths of
`frontend/src/services/api.ts` from the highway-delite travel-booking
frontend.

Modelling conventions:

* JavaScript numbers are modelled as rationals (`ℚ`); integer-valued JSON
  fields (spot counts, quantity) as `Int`.
* `Math.round x` is modelled as `⌊x + 1/2⌋` (JS rounds half toward +∞).
* The bundled static JSON document `/data/experiences.json` is a parameter
  (`StaticDoc`), since the fallback code only consumes its parsed shape
  `\x7b experiences?: RawExperience[] \x7d`.
* The wall clock is a parameter: `now : Nat` stands for `Date.now()`, and
  `todayPlus : Nat → String` stands for the function sending an offset `k`
  to `new Date(today + k days).toISOString().slice(0, 10)`; the source
  calls it with offsets `i + 1` for `i = 0..4`.
* A raw `id` field typed `string | number` is the sum `RawId`;
  `String(e.id)` is `RawId.toStr` (decimal rendering for the numeric case).
* A thrown `Error` in the fallback is `Except.error`; the only error the
  fallback itself produces is the not-found error, so the error type has a
  single constructor carrying the message.
* The remote tier (axios) is abstracted as a `RemoteResult` parameter:
  no backend configured, remote call failed, or remote success; the source
  falls through to the static path in the first two cases.
-/

/-- JavaScript Math.round on rationals: round half toward +∞. -/
def jsRound (x : ℚ) : ℤ := ⌊x + 1/2⌋

/-- JavaScript toUpperCase, modelled on the ASCII range as
uppercasing every character. -/
def jsToUpper (s : String) : String := ⟨s.data.map Char.toUpper⟩

/-- A raw JSON `id` field of type `string | number`. -/
inductive RawId where
  | str (s : String)
  | num (n : ℤ)
deriving DecidableEq, Repr

/-- JavaScript String(id) on a raw id (decimal for integers). -/
def RawId.toStr : RawId → String
  | .str s => s
  | .num n => toString n

/-- Raw slot entry of the static JSON document. -/
structure RawSlot where
  id : RawId
  date : String
  time : String
  availableSpots : ℤ
  totalSpots : ℤ
deriving DecidableEq, Repr

/-- Raw experience entry of the static JSON document (`slots` optional). -/
structure RawExperience where
  id : RawId
  name : String
  location : String
  description : String
  image : String
  price : ℚ
  slots : Option (List RawSlot)
deriving DecidableEq, Repr

/-- Parsed static document, shaped like the file:
`\x7b experiences?: RawExperience[] \x7d`. -/
structure StaticDoc where
  experiences : Option (List RawExperience)
deriving DecidableEq, Repr

/-- The `Experience` interface returned by `getExperiences`. -/
structure Experience where
  id : String
  name : String
  location : String
  description : String
  image : String
  price : ℚ
deriving DecidableEq, Repr

/-- The `Slot` interface (slot mapped into an experience detail). -/
structure Slot where
  id : String
  experienceId : String
  date : String
  time : String
  availableSpots : ℤ
  totalSpots : ℤ
deriving DecidableEq, Repr

/-- The `ExperienceDetail` interface: `Experience` plus its slots. -/
structure ExperienceDetail where
  id : String
  name : String
  location : String
  description : String
  image : String
  price : ℚ
  slots : List Slot
deriving DecidableEq, Repr

/-- The `BookingRequest` interface. -/
structure BookingRequest where
  experienceId : String
  slotId : String
  fullName : String
  email : String
  quantity : ℤ
  promoCode : Option String
  date : String
  time : String
deriving DecidableEq, Repr

/-- The `data` block of a `BookingResponse`. -/
structure BookingData where
  bookingRef : String
  experienceName : String
  date : String
  time : String
  quantity : ℤ
  total : ℚ
deriving DecidableEq, Repr

/-- The `BookingResponse` interface. -/
structure BookingResponse where
  success : Bool
  message : String
  data : Option BookingData
deriving DecidableEq, Repr

/-- Promo type: `percentage` or `flat`. -/
inductive PromoType where
  | percentage
  | flat
deriving DecidableEq, Repr

/-- The `data` block of a `PromoValidation`. -/
structure PromoData where
  code : String
  type : PromoType
  value : ℚ
  discount : ℚ
deriving DecidableEq, Repr

/-- The `PromoValidation` interface. -/
structure PromoValidation where
  success : Bool
  data : Option PromoData
  message : Option String
deriving DecidableEq, Repr

/-- Error raised by the fallback path of `getExperienceById`; the only
error that code can throw is the not-found error, carrying its message. -/
inductive ApiError where
  | notFound (msg : String)
deriving DecidableEq, Repr

/-- Outcome of the remote (axios) tier for one call: no backend base URL
configured, the remote call threw, or the remote call returned `a`. -/
inductive RemoteResult (α : Type) where
  | noBackend
  | failure
  | success (a : α)
deriving DecidableEq, Repr

/-- Fallback path of `getExperiences`: map each raw entry of
`json.experiences || []` to an `Experience`, dropping `slots`. -/
def getExperiences (doc : StaticDoc) : List Experience :=
  (doc.experiences.getD []).map fun e =>
    { id := e.id.toStr
      name := e.name
      location := e.location
      description := e.description
      image := e.image
      price := e.price }

/-- The fixed time table of `ensureSlots`: display time and its
`availableSpots`. -/
def slotTimes : List (String × ℤ) :=
  [("07:00 am", 4), ("9:00 am", 2), ("11:00 am", 5), ("1:00 pm", 0)]

/-- Slot synthesis of `ensureSlots`: for each of the next 5 calendar days
(offsets 1..5 from today), one raw slot per fixed time, `totalSpots = 10`,
id `` `${found.id}-${date}-${t.time}` ``. -/
def synthSlots (found : RawExperience) (todayPlus : Nat → String) : List RawSlot :=
  (List.range 5).flatMap fun i =>
    slotTimes.map fun t =>
      { id := .str (found.id.toStr ++ "-" ++ todayPlus (i + 1) ++ "-" ++ t.1)
        date := todayPlus (i + 1)
        time := t.1
        availableSpots := t.2
        totalSpots := 10 }

/-- The ensureSlots helper of the source: keep the entry slots when present
and non-empty, otherwise synthesize the 5-day schedule. -/
def ensureSlots (found : RawExperience) (todayPlus : Nat → String) : List RawSlot :=
  match found.slots with
  | some ss => if ss.length > 0 then ss else synthSlots found todayPlus
  | none => synthSlots found todayPlus

/-- Mapping of a raw slot into a `Slot` of the returned detail
(`experienceId := String(found.id)`). -/
def mapSlot (eid : String) (s : RawSlot) : Slot :=
  { id := s.id.toStr
    experienceId := eid
    date := s.date
    time := s.time
    availableSpots := s.availableSpots
    totalSpots := s.totalSpots }

/-- The `ExperienceDetail` built by the fallback path for a found entry. -/
def mkDetail (found : RawExperience) (todayPlus : Nat → String) : ExperienceDetail :=
  { id := found.id.toStr
    name := found.name
    location := found.location
    description := found.description
    image := found.image
    price := found.price
    slots := (ensureSlots found todayPlus).map (mapSlot found.id.toStr) }

/-- Fallback path of `getExperienceById`: find the entry with
`String(e.id) === String(id)`; throw the not-found error when absent. -/
def getExperienceById (doc : StaticDoc) (todayPlus : Nat → String) (id : String) :
    Except ApiError ExperienceDetail :=
  match (doc.experiences.getD []).find? (fun e => e.id.toStr == id) with
  | none => .error (.notFound "Experience not found in static data")
  | some found => .ok (mkDetail found todayPlus)

/-- The getExperienceById operation with its remote tier: a remote success is returned
as is; otherwise (no backend, or the remote call failed and was swallowed)
the static fallback runs. -/
def getExperienceDetailFull (remote : RemoteResult ExperienceDetail)
    (doc : StaticDoc) (todayPlus : Nat → String) (id : String) :
    Except ApiError ExperienceDetail :=
  match remote with
  | .success d => .ok d
  | _ => getExperienceById doc todayPlus id

/-- The unit price used by the fallback of `createBooking`:
`priceRes?.price ?? 1000` where `priceRes` is the fallback detail lookup
with failure caught (`.catch(() => null)`). -/
def bookingUnit (doc : StaticDoc) (todayPlus : Nat → String) (b : BookingRequest) : ℚ :=
  match (getExperienceById doc todayPlus b.experienceId).toOption with
  | some d => d.price
  | none => 1000

/-- Fallback path of `createBooking`: simulate a successful booking.
`qty = booking.quantity || 1` (a falsy, i.e. zero, quantity becomes 1),
`base = unit * qty`, `taxes = Math.round(base * 0.05)`,
`total = base + taxes`; `experienceName = priceRes?.name || "Experience"`
(note `||`: an empty looked-up name also falls back). -/
def createBooking (doc : StaticDoc) (todayPlus : Nat → String) (now : Nat)
    (booking : BookingRequest) : BookingResponse :=
  let priceRes := (getExperienceById doc todayPlus booking.experienceId).toOption
  let unit : ℚ := bookingUnit doc todayPlus booking
  let qty : ℤ := if booking.quantity = 0 then 1 else booking.quantity
  let base : ℚ := unit * (qty : ℚ)
  let taxes : ℤ := jsRound (base * (5 / 100))
  let total : ℚ := base + (taxes : ℚ)
  { success := true
    message := "Simulated booking (static demo)."
    data := some
      { bookingRef := "DEMO-" ++ toString now
        experienceName :=
          match priceRes with
          | some d => if d.name = "" then "Experience" else d.name
          | none => "Experience"
        date := booking.date
        time := booking.time
        quantity := qty
        total := total } }

/-- The static promo table of the fallback of `validatePromoCode`. -/
def promoTable : List (String × PromoType × ℚ) :=
  [("SAVE10", .percentage, 10), ("FLAT100", .flat, 100), ("WELCOME20", .percentage, 20)]

/-- Fallback path of `validatePromoCode`: look up the uppercased code in
the static table; unknown codes give a failure object (not a throw); the
discount is `Math.round(subtotal * value / 100)` for percentage promos and
the flat value otherwise. -/
def validatePromoCode (code : String) (subtotal : ℚ) : PromoValidation :=
  let upper := jsToUpper code
  match promoTable.find? (fun p => p.1 == upper) with
  | none => { success := false, data := none, message := some "Invalid promo code" }
  | some p =>
    let discount : ℚ :=
      match p.2.1 with
      | .percentage => (jsRound (subtotal * p.2.2 / 100) : ℚ)
      | .flat => p.2.2
    { success := true
      data := some { code := upper, type := p.2.1, value := p.2.2, discount := discount }
      message := none }

/-- Sample experience entry (no slots) used by witnesses. -/
def sampleExp : RawExperience :=
  { id := .str "e1"
    name := "Kayaking"
    location := "Goa"
    description := "desc"
    image := "img.jpg"
    price := 1000
    slots := none }

/-- Sample static document holding `sampleExp` alone. -/
def sampleDoc : StaticDoc := ⟨some [sampleExp]⟩

/-- Sample date formatter used by witnesses. -/
def sampleDates (k : Nat) : String := "2026-10-" ++ toString (11 + k)

/-- Sample booking request used by witnesses. -/
def sampleReq : BookingRequest :=
  { experienceId := "e1"
    slotId := "s1"
    fullName := "A B"
    email := "a@b.c"
    quantity := 2
    promoCode := none
    date := "2026-10-12"
    time := "9:00 am" }

/-- C1: the promo fallback knows exactly the three codes SAVE10 (10%
percentage), FLAT100 (100 flat), WELCOME20 (20% percentage), keyed by the
uppercased input; any other code yields a structured failure with message
"Invalid promo code"; percentage discounts are round(subtotal * value /
100) and flat discounts are the flat value, independent of subtotal. -/
theorem validatePromoCode_fallback_table (code : String) (subtotal : ℚ) :
    (jsToUpper code ≠ "SAVE10" → jsToUpper code ≠ "FLAT100" → jsToUpper code ≠ "WELCOME20" →
      validatePromoCode code subtotal =
        { success := false, data := none, message := some "Invalid promo code" }) ∧
    (jsToUpper code = "SAVE10" →
      validatePromoCode code subtotal =
        { success := true
          data := some { code := "SAVE10", type := .percentage, value := 10
                         discount := (jsRound (subtotal * 10 / 100) : ℚ) }
          message := none }) ∧
    (jsToUpper code = "FLAT100" →
      validatePromoCode code subtotal =
        { success := true
          data := some { code := "FLAT100", type := .flat, value := 100, discount := 100 }
          message := none }) ∧
    (jsToUpper code = "WELCOME20" →
      validatePromoCode code subtotal =
        { success := true
          data := some { code := "WELCOME20", type := .percentage, value := 20
                         discount := (jsRound (subtotal * 20 / 100) : ℚ) }
          message := none }) := by
  refine ⟨?_, ?_, ?_, ?_⟩
  · intro h1 h2 h3
    have hf : promoTable.find? (fun p => p.1 == jsToUpper code) = none := by
      rw [List.find?_eq_none]
      intro x hx
      simp only [promoTable, List.mem_cons, List.not_mem_nil, or_false] at hx
      rcases hx with h | h | h <;> subst h <;>
        simp only [beq_iff_eq] <;> intro hh
      · exact h1 hh.symm
      · exact h2 hh.symm
      · exact h3 hh.symm
    simp only [validatePromoCode, hf]
  · intro h
    simp only [validatePromoCode, h]
    rfl
  · intro h
    simp only [validatePromoCode, h]
    rfl
  · intro h
    simp only [validatePromoCode, h]
    rfl

/-- Witness for C1: the bogus code fails with the fixed message; save10 on
subtotal 1000 gives discount 100; FLAT100 on subtotal 50 gives the flat
discount 100 independent of the subtotal. -/
theorem validatePromoCode_fallback_table_witness :
    validatePromoCode "bogus" 1000 =
      { success := false, data := none, message := some "Invalid promo code" } ∧
    validatePromoCode "save10" 1000 =
      { success := true
        data := some { code := "SAVE10", type := .percentage, value := 10, discount := 100 }
        message := none } ∧
    validatePromoCode "FLAT100" 50 =
      { success := true
        data := some { code := "FLAT100", type := .flat, value := 100, discount := 100 }
        message := none } := by
  refine ⟨?_, ?_, ?_⟩
  · exact (validatePromoCode_fallback_table "bogus" 1000).1
      (by decide) (by decide) (by decide)
  · have h := (validatePromoCode_fallback_table "save10" 1000).2.1 (by decide)
    rw [h]
    norm_num [jsRound]
  · exact (validatePromoCode_fallback_table "FLAT100" 50).2.2.1 (by decide)

/-- C5: the createBooking fallback never fails: for every document, clock
value and request it returns success with the fixed demo message and the
booking reference DEMO- followed by the current timestamp; it consults no
slot availability (it is total in the request, whatever the slots hold). -/
theorem createBooking_always_succeeds (doc : StaticDoc) (todayPlus : Nat → String)
    (now : Nat) (booking : BookingRequest) :
    (createBooking doc todayPlus now booking).success = true ∧
    (createBooking doc todayPlus now booking).message = "Simulated booking (static demo)." ∧
    ∃ bd, (createBooking doc todayPlus now booking).data = some bd ∧
      bd.bookingRef = "DEMO-" ++ toString now :=
  ⟨rfl, rfl, _, rfl, rfl⟩

/-- C8: the getExperiences fallback is a pure function of the static
document: two calls reading identical static data return structurally
identical lists (its embedding takes no clock parameter because the source
reads none). -/
theorem getExperiences_deterministic (d1 d2 : StaticDoc) (h : d1 = d2) :
    getExperiences d1 = getExperiences d2 := by rw [h]

/-- Witness for C8 at the sample document. -/
theorem getExperiences_deterministic_witness :
    getExperiences sampleDoc = getExperiences sampleDoc :=
  getExperiences_deterministic sampleDoc sampleDoc rfl

/-- C9: a falsy (zero) quantity is replaced by 1: the returned data block
reports quantity 1 and its total is computed with quantity 1. -/
theorem createBooking_zero_quantity (doc : StaticDoc) (todayPlus : Nat → String)
    (now : Nat) (booking : BookingRequest) (h : booking.quantity = 0) :
    ∃ bd, (createBooking doc todayPlus now booking).data = some bd ∧
      bd.quantity = 1 ∧
      bd.total = bookingUnit doc todayPlus booking
        + (jsRound (bookingUnit doc todayPlus booking * (5 / 100)) : ℚ) := by
  refine ⟨_, rfl, ?_, ?_⟩
  · simp [createBooking, h]
  · simp [createBooking, h]

/-- Witness for C9: booking the sample experience (price 1000) with
quantity 0 yields a data block with quantity 1 and total 1050. -/
theorem createBooking_zero_quantity_witness :
    ∃ bd, (createBooking sampleDoc sampleDates 7
        { sampleReq with quantity := 0 }).data = some bd ∧
      bd.quantity = 1 ∧ bd.total = 1050 := by
  obtain ⟨bd, hbd, hq, ht⟩ :=
    createBooking_zero_quantity sampleDoc sampleDates 7 { sampleReq with quantity := 0 } rfl
  have hu : bookingUnit sampleDoc sampleDates { sampleReq with quantity := 0 } = 1000 := rfl
  rw [hu] at ht
  norm_num [jsRound] at ht
  exact ⟨bd, hbd, hq, ht⟩

/-- C6: for an id present in the static document (under stringified
comparison) the fallback returns a detail whose id equals the requested
id. -/
theorem getExperienceById_id_matches (doc : StaticDoc) (todayPlus : Nat → String)
    (id : String) (e : RawExperience) (he : e ∈ doc.experiences.getD [])
    (hid : e.id.toStr = id) :
    ∃ d, getExperienceById doc todayPlus id = .ok d ∧ d.id = id := by
  have hsome : ((doc.experiences.getD []).find? (fun x => x.id.toStr == id)).isSome := by
    rw [List.find?_isSome]
    exact ⟨e, he, by simp [hid]⟩
  obtain ⟨found, hf⟩ := Option.isSome_iff_exists.mp hsome
  have hp := List.find?_some hf
  simp only [beq_iff_eq] at hp
  refine ⟨mkDetail found todayPlus, ?_, ?_⟩
  · simp only [getExperienceById, hf]
  · exact hp

/-- Witness for C6 at the sample document and id e1. -/
theorem getExperienceById_id_matches_witness :
    ∃ d, getExperienceById sampleDoc sampleDates "e1" = .ok d ∧ d.id = "e1" :=
  getExperienceById_id_matches sampleDoc sampleDates "e1" sampleExp
    (by simp [sampleDoc]) rfl

/-- C10: every slot of a detail returned by the fallback carries the
experienceId of the detail itself (both for static and synthesized
slots). -/
theorem getExperienceById_slots_experienceId (doc : StaticDoc)
    (todayPlus : Nat → String) (id : String) (d : ExperienceDetail)
    (h : getExperienceById doc todayPlus id = .ok d) :
    ∀ s ∈ d.slots, s.experienceId = d.id := by
  unfold getExperienceById at h
  cases hf : (doc.experiences.getD []).find? (fun e => e.id.toStr == id) with
  | none => rw [hf] at h; cases h
  | some found =>
    rw [hf] at h
    simp only [Except.ok.injEq] at h
    subst h
    intro s hs
    simp only [mkDetail, List.mem_map] at hs
    obtain ⟨r, _, hr⟩ := hs
    rw [← hr]
    rfl

/-- Witness for C10: every slot of the detail of e1 in the sample document
carries the detail id, checked with a boolean fold over the list. -/
theorem getExperienceById_slots_experienceId_witness :
    ((mkDetail sampleExp sampleDates).slots.all
      (fun s => s.experienceId == (mkDetail sampleExp sampleDates).id)) = true := by
  have h := getExperienceById_slots_experienceId sampleDoc sampleDates "e1"
    (mkDetail sampleExp sampleDates) rfl
  rw [List.all_eq_true]
  intro s hs
  exact beq_iff_eq.mpr (h s hs)

/-- C4: when no backend is configured or the remote call failed, an id
absent from the static document makes the detail lookup fail with the
not-found error (the error type of the embedding has no other
constructor, so no remote failure is ever surfaced). -/
theorem getExperienceDetailFull_notFound (remote : RemoteResult ExperienceDetail)
    (doc : StaticDoc) (todayPlus : Nat → String) (id : String)
    (hr : remote = .noBackend ∨ remote = .failure)
    (hnf : ∀ e ∈ doc.experiences.getD [], e.id.toStr ≠ id) :
    getExperienceDetailFull remote doc todayPlus id =
      .error (.notFound "Experience not found in static data") := by
  have hf : (doc.experiences.getD []).find? (fun e => e.id.toStr == id) = none := by
    rw [List.find?_eq_none]
    intro x hx
    simp only [beq_iff_eq]
    exact hnf x hx
  rcases hr with h | h <;> subst h <;>
    simp only [getExperienceDetailFull, getExperienceById, hf]

/-- Witness for C4: a failed remote call plus the unknown id zzz against
the sample document surfaces exactly the not-found error. -/
theorem getExperienceDetailFull_notFound_witness :
    getExperienceDetailFull (.failure) sampleDoc sampleDates "zzz" =
      .error (.notFound "Experience not found in static data") := by
  refine getExperienceDetailFull_notFound .failure sampleDoc sampleDates "zzz"
    (Or.inr rfl) ?_
  intro e he
  simp only [sampleDoc, Option.getD_some, List.mem_singleton] at he
  subst he
  decide

/-- C7: the listing fallback maps each raw entry of the document to an
Experience built from exactly the six listed fields with the id
stringified, and returns nothing else (slot data is dropped since
Experience has no slot field). -/
theorem getExperiences_maps_entries (doc : StaticDoc) :
    (getExperiences doc).length = (doc.experiences.getD []).length ∧
    (∀ e ∈ doc.experiences.getD [],
      ({ id := e.id.toStr, name := e.name, location := e.location
         description := e.description, image := e.image, price := e.price } : Experience)
        ∈ getExperiences doc) ∧
    (∀ x ∈ getExperiences doc, ∃ e ∈ doc.experiences.getD [],
      x = { id := e.id.toStr, name := e.name, location := e.location
            description := e.description, image := e.image, price := e.price }) := by
  refine ⟨List.length_map _ _, ?_, ?_⟩
  · intro e he
    exact List.mem_map.mpr ⟨e, he, rfl⟩
  · intro x hx
    obtain ⟨e, he, hx⟩ := List.mem_map.mp hx
    exact ⟨e, he, hx.symm⟩

/-- Witness for C7: the sample document lists exactly one experience, the
mapped image of its single raw entry. -/
theorem getExperiences_maps_entries_witness :
    (getExperiences sampleDoc).length = 1 ∧
    ({ id := "e1", name := "Kayaking", location := "Goa", description := "desc"
       image := "img.jpg", price := 1000 } : Experience) ∈ getExperiences sampleDoc := by
  refine ⟨(getExperiences_maps_entries sampleDoc).1.trans rfl, ?_⟩
  exact (getExperiences_maps_entries sampleDoc).2.1 sampleExp (by simp [sampleDoc])

/-- Splitting lemma for the tax rounding: on an integer base, adding the
rounded 5% tax equals rounding the base times 1.05 directly. -/
theorem intBase_tax_split (n : ℤ) :
    (n : ℚ) + (jsRound ((n : ℚ) * (5 / 100)) : ℚ) = (jsRound ((n : ℚ) * (105 / 100)) : ℚ) := by
  unfold jsRound
  have h : (n : ℚ) * (105 / 100) + 1 / 2 = (n : ℚ) + ((n : ℚ) * (5 / 100) + 1 / 2) := by
    ring
  rw [h, Int.floor_int_add]
  push_cast
  ring

/-- C3: the booking fallback uses the looked-up price (1000 when the
lookup fails), and for a valid quantity (at least 1) returns a data block
whose total is base plus the rounded 5% tax where base is price times
quantity; when base is an integer this equals rounding base times 1.05. -/
theorem createBooking_total_formula (doc : StaticDoc) (todayPlus : Nat → String)
    (now : Nat) (booking : BookingRequest) (hq : 1 ≤ booking.quantity) :
    ((getExperienceById doc todayPlus booking.experienceId).toOption = none →
      bookingUnit doc todayPlus booking = 1000) ∧
    (∀ d, (getExperienceById doc todayPlus booking.experienceId).toOption = some d →
      bookingUnit doc todayPlus booking = d.price) ∧
    ∃ bd, (createBooking doc todayPlus now booking).data = some bd ∧
      bd.quantity = booking.quantity ∧
      bd.total = bookingUnit doc todayPlus booking * (booking.quantity : ℚ)
        + (jsRound (bookingUnit doc todayPlus booking * (booking.quantity : ℚ) * (5 / 100)) : ℚ) ∧
      ∀ n : ℤ, bookingUnit doc todayPlus booking * (booking.quantity : ℚ) = (n : ℚ) →
        bd.total =
          (jsRound (bookingUnit doc todayPlus booking * (booking.quantity : ℚ) * (105 / 100)) : ℚ) := by
  have hq0 : ¬ booking.quantity = 0 := by omega
  refine ⟨?_, ?_, ?_⟩
  · intro h
    simp only [bookingUnit, h]
  · intro d h
    simp only [bookingUnit, h]
  · refine ⟨_, rfl, ?_, ?_, ?_⟩
    · simp only [createBooking, if_neg hq0]
    · simp only [createBooking, if_neg hq0]
    · intro n hn
      simp only [createBooking, if_neg hq0, hn]
      rw [← hn, hn]
      exact intBase_tax_split n

/-- Witness for C3: with no static data the lookup fails, the unit price
defaults to 1000 and quantity 2 gives base 2000, tax 100 and total 2100. -/
theorem createBooking_total_formula_witness :
    ∃ bd, (createBooking ⟨none⟩ sampleDates 0 sampleReq).data = some bd ∧
      bd.quantity = 2 ∧ bd.total = 2100 := by
  obtain ⟨hdef, hfound, bd, hbd, hqty, htot, hint⟩ :=
    createBooking_total_formula ⟨none⟩ sampleDates 0 sampleReq (by decide)
  have hu : bookingUnit ⟨none⟩ sampleDates sampleReq = 1000 := hdef rfl
  rw [hu] at htot
  norm_num [jsRound, sampleReq] at htot
  exact ⟨bd, hbd, hqty.trans rfl, htot⟩

/-- C2: when the found entry has no slots (absent or empty), the fallback
detail holds exactly the 20 synthesized slots: for each of the 5 calendar
days starting tomorrow, in order, one slot per fixed time 07:00 am (4
spots), 9:00 am (2), 11:00 am (5), 1:00 pm (0 — always sold out), each
with totalSpots 10 and an id built from the experience id, the date and
the time. -/
theorem getExperienceById_synthesized_slots (doc : StaticDoc)
    (todayPlus : Nat → String) (id : String) (found : RawExperience)
    (hf : (doc.experiences.getD []).find? (fun e => e.id.toStr == id) = some found)
    (hns : found.slots = none ∨ found.slots = some []) :
    ∃ d, getExperienceById doc todayPlus id = .ok d ∧
      d.slots.length = 20 ∧
      d.slots = (List.range 5).flatMap (fun i =>
        [ { id := found.id.toStr ++ "-" ++ todayPlus (i + 1) ++ "-" ++ "07:00 am"
            experienceId := found.id.toStr, date := todayPlus (i + 1)
            time := "07:00 am", availableSpots := 4, totalSpots := 10 },
          { id := found.id.toStr ++ "-" ++ todayPlus (i + 1) ++ "-" ++ "9:00 am"
            experienceId := found.id.toStr, date := todayPlus (i + 1)
            time := "9:00 am", availableSpots := 2, totalSpots := 10 },
          { id := found.id.toStr ++ "-" ++ todayPlus (i + 1) ++ "-" ++ "11:00 am"
            experienceId := found.id.toStr, date := todayPlus (i + 1)
            time := "11:00 am", availableSpots := 5, totalSpots := 10 },
          ({ id := found.id.toStr ++ "-" ++ todayPlus (i + 1) ++ "-" ++ "1:00 pm"
             experienceId := found.id.toStr, date := todayPlus (i + 1)
             time := "1:00 pm", availableSpots := 0, totalSpots := 10 } : Slot) ]) := by
  have hslots : (mkDetail found todayPlus).slots =
      (synthSlots found todayPlus).map (mapSlot found.id.toStr) := by
    rcases hns with h | h <;> simp [mkDetail, ensureSlots, h]
  refine ⟨mkDetail found todayPlus, by simp only [getExperienceById, hf], ?_, ?_⟩
  · rw [hslots]
    rfl
  · rw [hslots]
    rfl

/-- Witness for C2: the sample experience has no slots; its detail holds
20 slots and the first one is tomorrow at 07:00 am with 4 of 10 spots. -/
theorem getExperienceById_synthesized_slots_witness :
    ∃ d, getExperienceById sampleDoc sampleDates "e1" = .ok d ∧
      d.slots.length = 20 ∧
      d.slots.head? = some
        { id := "e1-2026-10-12-07:00 am", experienceId := "e1", date := "2026-10-12"
          time := "07:00 am", availableSpots := 4, totalSpots := 10 } := by
  obtain ⟨d, hd, hlen, hs⟩ := getExperienceById_synthesized_slots sampleDoc sampleDates
    "e1" sampleExp rfl (Or.inl rfl)
  refine ⟨d, hd, hlen, ?_⟩
  rw [hs]
  rfl

/-- Static document holding one experience priced one half, used to show
the two total formulas of the spec disagree on fractional prices. -/
def halfPriceDoc : StaticDoc :=
  ⟨some [{ id := .str "h1"
           name := "Half"
           location := "L"
           description := "d"
           image := "i"
           price := 1/2
           slots := none }]⟩

/-- Booking request for the half-priced experience, quantity 1. -/
def halfReq : BookingRequest :=
  { experienceId := "h1"
    slotId := "s1"
    fullName := "A B"
    email := "a@b.c"
    quantity := 1
    promoCode := none
    date := "2026-10-12"
    time := "9:00 am" }

/-- Counterexample for C3 as stated: at price one half and quantity 1 the
code returns total one half (base plus the rounded 5% tax, which rounds
to zero), while round(price * quantity * 1.05) is 1, so the claimed
equivalent formula disagrees with the code. -/
theorem createBooking_naive_rounding_cex :
    ∃ bd, (createBooking halfPriceDoc sampleDates 0 halfReq).data = some bd ∧
      bd.quantity = 1 ∧
      bd.total = 1/2 ∧
      bd.total ≠ (jsRound ((1/2 : ℚ) * (1 : ℚ) * (105 / 100)) : ℚ) := by
  have hu : bookingUnit halfPriceDoc sampleDates halfReq = 1/2 := rfl
  refine ⟨_, rfl, rfl, ?_, ?_⟩
  · show bookingUnit halfPriceDoc sampleDates halfReq * ((1 : ℤ) : ℚ)
      + (jsRound (bookingUnit halfPriceDoc sampleDates halfReq * ((1 : ℤ) : ℚ) * (5 / 100)) : ℚ)
        = 1/2
    rw [hu]
    norm_num [jsRound]
  · show bookingUnit halfPriceDoc sampleDates halfReq * ((1 : ℤ) : ℚ)
      + (jsRound (bookingUnit halfPriceDoc sampleDates halfReq * ((1 : ℤ) : ℚ) * (5 / 100)) : ℚ)
        ≠ (jsRound ((1/2 : ℚ) * (1 : ℚ) * (105 / 100)) : ℚ)
    rw [hu]
    norm_num [jsRound]
